import Mathlib

/-!
Verification of the Weaviate MCP client (`src/client.ts`, `src/utils/pagination.ts`,
`src/utils/errors.ts`, `src/types/entities.ts`).

JavaScript numbers are modelled as `Int` (every value exercised by the
specification's claims is an integer); `undefined`/absent optional fields are
modelled as `Option`; thrown exceptions are modelled with `Except`.
-/

namespace Weaviate

/-! ## JavaScript primitives used by the client -/

/-- JavaScript `x || d` on a possibly-undefined number: the default is taken
when the value is absent or falsy (zero). -/
def jsOrInt (x : Option Int) (d : Int) : Int :=
  match x with
  | none => d
  | some v => if v = 0 then d else v

/-- Characters skipped by `parseInt` before the number (JS WhiteSpace / line
terminators). -/
def isJsSpace (c : Char) : Bool :=
  c == ' ' || c == '\t' || c == '\n' || c == '\r' || c == '\x0b' || c == '\x0c'

/-- Longest leading run of decimal digits. -/
def takeDigits : List Char → List Char
  | [] => []
  | c :: cs => if c.isDigit then c :: takeDigits cs else []

/-- Numeric value of a list of decimal digits. -/
def digitsToNat (ds : List Char) : Nat :=
  ds.foldl (fun acc c => acc * 10 + (c.toNat - 48)) 0

/-- JavaScript `parseInt(s, 10)`: skip leading whitespace, optional sign,
longest digit prefix; `none` models the `NaN` result when no digits are
found. -/
def jsParseInt (s : String) : Option Int :=
  let cs := s.data.dropWhile isJsSpace
  let signed : Int × List Char :=
    match cs with
    | '-' :: t => (-1, t)
    | '+' :: t => (1, t)
    | t => (1, t)
  let ds := takeDigits signed.2
  if ds.isEmpty then none else some (signed.1 * (digitsToNat ds : Int))

/-- Does `pat` occur at the start of `s`? -/
def charsStartWith : List Char → List Char → Bool
  | [], _ => true
  | _ :: _, [] => false
  | p :: ps, c :: cs => p == c && charsStartWith ps cs

/-- Does `pat` occur anywhere in `s`? -/
def charsContain (pat : List Char) : List Char → Bool
  | [] => charsStartWith pat []
  | c :: cs => charsStartWith pat (c :: cs) || charsContain pat cs

/-- Substring test on strings (used to state the spec's "document contains /
omits" requirements). -/
def strContains (s pat : String) : Bool :=
  charsContain pat.data s.data

/-! ## Pagination utilities (`src/utils/pagination.ts`) -/

/-- `PaginationParams` fields used by offset pagination (`limit?`, `offset?`). -/
structure PaginationParams where
  limit : Option Int
  offset : Option Int

/-- `PaginatedResponse<T>` from `src/types/entities.ts`. -/
structure PaginatedResponse (T : Type) where
  items : List T
  count : Nat
  total : Option Int
  hasMore : Bool
  nextCursor : Option String

/-- The `options` bag of `createPaginatedResponse`. -/
structure CreateOptions where
  total : Option Int
  hasMore : Option Bool
  nextCursor : Option String

/-- `createPaginatedResponse(items, options)`: `count` is `items.length`,
`hasMore` defaults to `false` (`??`), `total` and `nextCursor` pass through. -/
def createPaginatedResponse {T : Type} (items : List T) (options : CreateOptions) :
    PaginatedResponse T :=
  ⟨items, items.length, options.total, options.hasMore.getD false, options.nextCursor⟩

/-- `emptyPaginatedResponse()`. -/
def emptyPaginatedResponse {T : Type} : PaginatedResponse T :=
  ⟨[], 0, none, false, none⟩

/-- `hasMoreItems(offset, limit, total)`. -/
def hasMoreItems (offset limit total : Int) : Bool :=
  offset + limit < total

/-- `getNextOffset(currentOffset, limit, total)`; `none` models `undefined`. -/
def getNextOffset (currentOffset limit total : Int) : Option Int :=
  let next := currentOffset + limit
  if next < total then some next else none

/-- The Paginated Result invariant claimed by the specification:
`count == items.length` and `nextCursor` present only when `hasMore`. -/
def pagInvariant {T : Type} (r : PaginatedResponse T) : Prop :=
  r.count = r.items.length ∧ (r.nextCursor.isSome = true → r.hasMore = true)

/-! ## JSON values (result of the runtime's `JSON.parse`) -/

/-- A JavaScript JSON value. The client never parses JSON itself — it calls
the runtime's `JSON.parse` — so the pipeline below is parameterised by a
parsing oracle `String → Option JsonVal` (`none` models a thrown
`SyntaxError`, i.e. malformed JSON). -/
inductive JsonVal where
  | str (s : String)
  | num (n : Int)
  | bool (b : Bool)
  | null
  | arr (xs : List JsonVal)
  | obj (fields : List (String × JsonVal))

/-- Property access `v.k` on a JSON value: defined only on objects. -/
def jsGet (v : JsonVal) (k : String) : Option JsonVal :=
  match v with
  | .obj fs => (fs.find? (fun f => f.1 == k)).map (fun f => f.2)
  | _ => none

/-- JavaScript truthiness of a JSON value. -/
def jsTruthy : JsonVal → Bool
  | .str s => !(s == "")
  | .num n => !(n == 0)
  | .bool b => b
  | .null => false
  | .arr _ => true
  | .obj _ => true

/-- JavaScript `String(v)` coercion (used when an extracted error-message
field is assigned to the message string). -/
def jsDisplay : JsonVal → String
  | .str s => s
  | .num n => toString n
  | .bool b => if b then "true" else "false"
  | .null => "null"
  | .arr xs => String.intercalate "," (xs.map fun x =>
      match x with
      | .str s => s
      | .num n => toString n
      | .bool b => if b then "true" else "false"
      | _ => "")
  | .obj _ => "[object Object]"

/-- First truthy value of a `||` chain, `none` when all are absent or falsy. -/
def firstTruthy : List (Option JsonVal) → Option JsonVal
  | [] => none
  | none :: rest => firstTruthy rest
  | some v :: rest => if jsTruthy v then some v else firstTruthy rest

/-! ## Error taxonomy (`src/utils/errors.ts`) -/

/-- Typed errors thrown by the client. `api` is `WeaviateApiError`,
`rateLimit` is `RateLimitError` (its `retryAfterSeconds` is `Option Int`,
`none` modelling `NaN`), `auth` is `AuthenticationError`, `notFound` is
`NotFoundError` (carrying entity type and id), `validation` and `schema` are
`ValidationError` / `SchemaError` (never thrown by the client itself), and
`js` models an untyped runtime `Error` (network failure, `SyntaxError`). -/
inductive WvError where
  | api (message : String) (status : Nat)
  | rateLimit (message : String) (retryAfterSeconds : Option Int)
  | auth (message : String)
  | notFound (entityType : String) (id : String)
  | validation (message : String)
  | schema (message : String)
  | js (message : String)

/-- The `message` property of each error, as built by the constructors in
`src/utils/errors.ts`. -/
def WvError.message : WvError → String
  | .api m _ => m
  | .rateLimit m _ => m
  | .auth m => m
  | .notFound t i => t ++ " with ID \x27" ++ i ++ "\x27 not found"
  | .validation m => m
  | .schema m => m
  | .js m => m

/-! ## HTTP request pipeline (`request` in `src/client.ts`) -/

/-- The parts of a `fetch` `Response` inspected by `request`. `ok` is derived:
`200 <= status < 300`. -/
structure HttpResponse where
  status : Nat
  retryAfter : Option String
  body : String

/-- `response.ok`. -/
def responseOk (r : HttpResponse) : Bool :=
  decide (200 ≤ r.status) && decide (r.status < 300)

/-- Outcome of the `fetch` call itself: either the promise rejects (network
failure) or a response arrives. -/
inductive FetchOutcome where
  | failure (message : String)
  | success (response : HttpResponse)

/-- Result of one `request` call together with the number of `fetch` calls it
performed (0 or 1), making "never attempts network I/O" provable. -/
structure RequestOutcome where
  result : Except WvError (Option JsonVal)
  fetchCalls : Nat

/-- The rate-limit branch's retry value:
`retryAfter ? parseInt(retryAfter, 10) : 60` — `60` only when the header is
absent or the empty string (falsy); otherwise JS `parseInt`, whose `NaN`
outcome is `none`. -/
def retryWait (header : Option String) : Option Int :=
  match header with
  | none => some 60
  | some s => if s = "" then some 60 else jsParseInt s

/-- Error-message extraction of the generic non-2xx branch: try to parse the
body as JSON and read `error?.message || message || error`, falling back to
the raw body text, falling back to `Weaviate API error: <status>`. -/
def extractErrorMessage (body : String) (status : Nat)
    (parse : String → Option JsonVal) : String :=
  let fallback := "Weaviate API error: " ++ toString status
  match parse body with
  | some j =>
    match firstTruthy [(jsGet j "error").bind (fun e => jsGet e "message"),
                       jsGet j "message", jsGet j "error"] with
    | some v => jsDisplay v
    | none => fallback
  | none => if body = "" then fallback else body

/-- The `request` helper: guard on a configured base URL, then `fetch`, then
the status-code decision list (429, 401/403, 404, other non-2xx, 204, empty
body, JSON body). `parse` is the runtime's `JSON.parse`. -/
def requestT (baseUrl endpoint : String) (fetch : FetchOutcome)
    (parse : String → Option JsonVal) : RequestOutcome :=
  if baseUrl = "" then
    ⟨.error (.auth "No Weaviate URL provided. Include X-Weaviate-URL header."), 0⟩
  else
    match fetch with
    | .failure m => ⟨.error (.js m), 1⟩
    | .success r =>
      if r.status = 429 then
        ⟨.error (.rateLimit "Rate limit exceeded" (retryWait r.retryAfter)), 1⟩
      else if r.status = 401 ∨ r.status = 403 then
        ⟨.error (.auth "Authentication failed. Check your Weaviate API key."), 1⟩
      else if r.status = 404 then
        ⟨.error (.notFound "Resource" endpoint), 1⟩
      else if !responseOk r then
        ⟨.error (.api (extractErrorMessage r.body r.status parse) r.status), 1⟩
      else if r.status = 204 then
        ⟨.ok none, 1⟩
      else if r.body = "" then
        ⟨.ok none, 1⟩
      else
        match parse r.body with
        | some v => ⟨.ok (some v), 1⟩
        | none => ⟨.error (.js "SyntaxError: Unexpected token in JSON"), 1⟩

/-- Base-URL normalization performed by the client constructor:
`(credentials.weaviateUrl || '').replace(/\/$/, '')`. -/
def normalizeBaseUrl (weaviateUrl : Option String) : String :=
  let s := weaviateUrl.getD ""
  if s.endsWith "/" then s.dropRight 1 else s

/-! ## `listObjects` (`src/client.ts`) -/

/-- The decoded `GET /v1/objects` payload: `{ objects, totalResults? }`. -/
structure RawListResponse (T : Type) where
  objects : List T
  totalResults : Option Int

/-- The pure tail of `listObjects`: effective limit `params?.limit || 20`,
effective offset `params?.offset || 0`, `hasMore` iff the page length equals
the effective limit, continuation cursor `String(offset + limit)` only when
`hasMore`. -/
def listObjectsPage {T : Type} (params : PaginationParams) (resp : RawListResponse T) :
    PaginatedResponse T :=
  let limit := jsOrInt params.limit 20
  let offset := jsOrInt params.offset 0
  let hasMore := decide ((resp.objects.length : Int) = limit)
  let nextOffset : Option Int := if hasMore then some (offset + limit) else none
  createPaginatedResponse resp.objects
    ⟨resp.totalResults, some hasMore, nextOffset.map toString⟩

/-! ## Filter model (`WhereFilter` in `src/types/entities.ts`) and its
serialization (`JSON.stringify(options.where)` in `buildGraphQLGetQuery`) -/

/-- The fourteen operator kinds of `WhereFilter.operator`. -/
inductive WhereOperator where
  | And | Or | Equal | NotEqual
  | GreaterThan | GreaterThanEqual | LessThan | LessThanEqual
  | Like | WithinGeoRange | IsNull | ContainsAny | ContainsAll

/-- The operator's string value as it appears in the TypeScript union. -/
def WhereOperator.render : WhereOperator → String
  | .And => "And"
  | .Or => "Or"
  | .Equal => "Equal"
  | .NotEqual => "NotEqual"
  | .GreaterThan => "GreaterThan"
  | .GreaterThanEqual => "GreaterThanEqual"
  | .LessThan => "LessThan"
  | .LessThanEqual => "LessThanEqual"
  | .Like => "Like"
  | .WithinGeoRange => "WithinGeoRange"
  | .IsNull => "IsNull"
  | .ContainsAny => "ContainsAny"
  | .ContainsAll => "ContainsAll"

/-- Is the operator a boolean combinator? -/
def isCombinatorOp : WhereOperator → Bool
  | .And => true
  | .Or => true
  | _ => false

/-- `valueGeoRange`: geo coordinates plus a maximum distance. -/
structure GeoRange where
  latitude : Int
  longitude : Int
  maxDistance : Int

/-- JSON string escaping as performed by `JSON.stringify`. -/
def jsonEscapeChar (c : Char) : String :=
  if c == '"' then "\\\""
  else if c == '\\' then "\\\\"
  else if c == '\n' then "\\n"
  else if c == '\t' then "\\t"
  else if c == '\r' then "\\r"
  else String.singleton c

/-- Escape every character of a string. -/
def jsonEscape (s : String) : String :=
  String.join (s.data.map jsonEscapeChar)

/-- A JSON string literal. -/
def jsonQuote (s : String) : String :=
  "\"" ++ jsonEscape s ++ "\""

/-- A JSON array of strings. -/
def jsonStrList (xs : List String) : String :=
  "[" ++ String.intercalate "," (xs.map jsonQuote) ++ "]"

/-- A JSON array of numbers. -/
def jsonIntList (xs : List Int) : String :=
  "[" ++ String.intercalate "," (xs.map toString) ++ "]"

/-- A JSON boolean. -/
def jsonBool (b : Bool) : String :=
  if b then "true" else "false"

/-- A JSON array of booleans. -/
def jsonBoolList (xs : List Bool) : String :=
  "[" ++ String.intercalate "," (xs.map jsonBool) ++ "]"

/-- `JSON.stringify` of a `valueGeoRange` object. -/
def jsonGeoRange (g : GeoRange) : String :=
  "\x7b\"geoCoordinates\":\x7b\"latitude\":" ++ toString g.latitude
    ++ ",\"longitude\":" ++ toString g.longitude
    ++ "\x7d,\"distance\":\x7b\"max\":" ++ toString g.maxDistance ++ "\x7d\x7d"

/-- One `"key":value` member for a defined optional field, nothing for an
absent one (`JSON.stringify` drops `undefined` members). -/
def optEntry {α : Type} (key : String) (render : α → String) (v : Option α) : List String :=
  match v with
  | none => []
  | some x => ["\"" ++ key ++ "\":" ++ render x]

/-- `WhereFilter`: one operator, optional operand list, optional property
path, and the twelve mutually exclusive optional value fields, in the
interface's declaration order. -/
inductive WhereFilter where
  | mk
    (operator : WhereOperator)
    (operands : Option (List WhereFilter))
    (path : Option (List String))
    (valueInt : Option Int)
    (valueNumber : Option Int)
    (valueBoolean : Option Bool)
    (valueString : Option String)
    (valueText : Option String)
    (valueDate : Option String)
    (valueGeoRange : Option GeoRange)
    (valueIntArray : Option (List Int))
    (valueNumberArray : Option (List Int))
    (valueBooleanArray : Option (List Bool))
    (valueStringArray : Option (List String))
    (valueTextArray : Option (List String))
    (valueDateArray : Option (List String))

/-- The filter's operator. -/
def WhereFilter.operator : WhereFilter → WhereOperator
  | .mk op .. => op

/-- The filter's operand list, when defined. -/
def WhereFilter.operands : WhereFilter → Option (List WhereFilter)
  | .mk _ ops .. => ops

/-- The filter's property path, when defined. -/
def WhereFilter.path : WhereFilter → Option (List String)
  | .mk _ _ p .. => p

/-- The rendered `"valueXxx":...` members of the populated value fields, in
declaration order. -/
def valueEntriesCore (vI vN : Option Int) (vB : Option Bool) (vS vT vD : Option String)
    (vG : Option GeoRange) (vIA vNA : Option (List Int)) (vBA : Option (List Bool))
    (vSA vTA vDA : Option (List String)) : List String :=
  optEntry "valueInt" toString vI
    ++ optEntry "valueNumber" toString vN
    ++ optEntry "valueBoolean" jsonBool vB
    ++ optEntry "valueString" jsonQuote vS
    ++ optEntry "valueText" jsonQuote vT
    ++ optEntry "valueDate" jsonQuote vD
    ++ optEntry "valueGeoRange" jsonGeoRange vG
    ++ optEntry "valueIntArray" jsonIntList vIA
    ++ optEntry "valueNumberArray" jsonIntList vNA
    ++ optEntry "valueBooleanArray" jsonBoolList vBA
    ++ optEntry "valueStringArray" jsonStrList vSA
    ++ optEntry "valueTextArray" jsonStrList vTA
    ++ optEntry "valueDateArray" jsonStrList vDA

/-- The rendered value members of a filter node. -/
def valueEntries : WhereFilter → List String
  | .mk _ _ _ vI vN vB vS vT vD vG vIA vNA vBA vSA vTA vDA =>
    valueEntriesCore vI vN vB vS vT vD vG vIA vNA vBA vSA vTA vDA

mutual

/-- `JSON.stringify` of a `WhereFilter` value: an object whose members are
the defined fields in declaration order, recursing into `operands`. -/
def stringifyWhere : WhereFilter → String
  | .mk op ops path vI vN vB vS vT vD vG vIA vNA vBA vSA vTA vDA =>
    "\x7b" ++ String.intercalate ","
      (["\"operator\":" ++ jsonQuote op.render]
        ++ (match ops with
            | none => []
            | some l => ["\"operands\":[" ++ String.intercalate "," (stringifyEach l) ++ "]"])
        ++ optEntry "path" jsonStrList path
        ++ valueEntriesCore vI vN vB vS vT vD vG vIA vNA vBA vSA vTA vDA)
      ++ "\x7d"

/-- `JSON.stringify` of each element of an operand list. -/
def stringifyEach : List WhereFilter → List String
  | [] => []
  | f :: fs => stringifyWhere f :: stringifyEach fs

end

mutual

/-- The data-model invariant of §3: combinators carry a non-empty operand
list and no value fields; leaves carry no operands, a non-empty property
path, and exactly one populated value field. -/
def filterInv : WhereFilter → Bool
  | .mk op ops path vI vN vB vS vT vD vG vIA vNA vBA vSA vTA vDA =>
    if isCombinatorOp op then
      match ops with
      | none => false
      | some l =>
        !l.isEmpty
          && (valueEntriesCore vI vN vB vS vT vD vG vIA vNA vBA vSA vTA vDA).isEmpty
          && filterInvList l
    else
      ops.isNone
        && (match path with
            | some p => !p.isEmpty
            | none => false)
        && (valueEntriesCore vI vN vB vS vT vD vG vIA vNA vBA vSA vTA vDA).length == 1

/-- The invariant, on every element of an operand list. -/
def filterInvList : List WhereFilter → Bool
  | [] => true
  | f :: fs => filterInv f && filterInvList fs

end

/-! ## GraphQL query synthesizer (`buildGraphQLGetQuery` and the five
search-clause builders in `src/client.ts`) -/

/-- The common options of `buildGraphQLGetQuery`; `whereFilter` models the
`where` option (a reserved word in Lean). -/
structure GetQueryOptions where
  limit : Option Int
  fields : Option (List String)
  whereFilter : Option WhereFilter
  tenant : Option String

/-- The default field selection `_additional { id distance certainty }`. -/
def defaultGetFields : String :=
  "_additional \x7b id distance certainty \x7d"

/-- `buildGraphQLGetQuery(className, searchClause, options)`: the `Get`
template with field list (`options?.fields?.length ? join : default`),
`limit` (`options?.limit || 10`), optional `where:` clause serialized with
`JSON.stringify`, and optional quoted `tenant:` clause. -/
def buildGraphQLGetQuery (className searchClause : String)
    (options : GetQueryOptions) : String :=
  let fields :=
    match options.fields with
    | some fs => if fs.length ≠ 0 then String.intercalate " " fs else defaultGetFields
    | none => defaultGetFields
  let limit := jsOrInt options.limit 10
  let whereClause :=
    match options.whereFilter with
    | none => ""
    | some w => ", where: " ++ stringifyWhere w
  let tenantClause :=
    match options.tenant with
    | none => ""
    | some t => if t = "" then "" else ", tenant: \"" ++ t ++ "\""
  "\x7b\n      Get \x7b\n        " ++ className ++ "(\n          " ++ searchClause
    ++ "\n          limit: " ++ toString limit
    ++ "\n          " ++ whereClause
    ++ "\n          " ++ tenantClause
    ++ "\n        ) \x7b\n          " ++ fields
    ++ "\n        \x7d\n      \x7d\n    \x7d"

/-- `NearVectorParams`. -/
structure NearVectorParams where
  vector : List Int
  certainty : Option Int
  distance : Option Int

/-- A `moveTo` / `moveAwayFrom` sub-clause of `NearTextParams`; `objects`
holds the `id` of each object reference. -/
structure MoveClause where
  concepts : Option (List String)
  objects : Option (List String)
  force : Int

/-- `NearTextParams`. -/
structure NearTextParams where
  concepts : List String
  certainty : Option Int
  distance : Option Int
  moveTo : Option MoveClause
  moveAwayFrom : Option MoveClause

/-- `NearObjectParams`. -/
structure NearObjectParams where
  id : String
  certainty : Option Int
  distance : Option Int

/-- `HybridParams`. -/
structure HybridParams where
  query : String
  alpha : Option Int
  vector : Option (List Int)
  properties : Option (List String)
  fusionType : Option String

/-- `Bm25Params`. -/
structure Bm25Params where
  query : String
  properties : Option (List String)

/-- `JSON.stringify` of a `{ id: string }[]` object-reference list. -/
def jsonIdObjList (xs : List String) : String :=
  "[" ++ String.intercalate ","
    (xs.map (fun i => "\x7b\"id\":" ++ jsonQuote i ++ "\x7d")) ++ "]"

/-- One `moveTo:` / `moveAwayFrom:` fragment: required `force`, optional
concept list and object-reference list. -/
def moveClauseStr (label : String) (m : MoveClause) : String :=
  let s := ", " ++ label ++ ": \x7b force: " ++ toString m.force
  let s := s ++
    (match m.concepts with
     | none => ""
     | some cs => ", concepts: " ++ jsonStrList cs)
  let s := s ++
    (match m.objects with
     | none => ""
     | some os => ", objects: " ++ jsonIdObjList os)
  s ++ " \x7d"

/-- The near-text search clause built by `nearText`. -/
def nearTextClause (params : NearTextParams) : String :=
  let s := "nearText: \x7b concepts: " ++ jsonStrList params.concepts
  let s := s ++
    (match params.certainty with
     | none => ""
     | some c => ", certainty: " ++ toString c)
  let s := s ++
    (match params.distance with
     | none => ""
     | some d => ", distance: " ++ toString d)
  let s := s ++
    (match params.moveTo with
     | none => ""
     | some m => moveClauseStr "moveTo" m)
  let s := s ++
    (match params.moveAwayFrom with
     | none => ""
     | some m => moveClauseStr "moveAwayFrom" m)
  s ++ " \x7d"

/-- The near-vector search clause built by `nearVector`. -/
def nearVectorClause (params : NearVectorParams) : String :=
  let s := "nearVector: \x7b vector: ["
    ++ String.intercalate ", " (params.vector.map toString) ++ "]"
  let s := s ++
    (match params.certainty with
     | none => ""
     | some c => ", certainty: " ++ toString c)
  let s := s ++
    (match params.distance with
     | none => ""
     | some d => ", distance: " ++ toString d)
  s ++ " \x7d"

/-- The near-object search clause built by `nearObject`. -/
def nearObjectClause (params : NearObjectParams) : String :=
  let s := "nearObject: \x7b id: \"" ++ params.id ++ "\""
  let s := s ++
    (match params.certainty with
     | none => ""
     | some c => ", certainty: " ++ toString c)
  let s := s ++
    (match params.distance with
     | none => ""
     | some d => ", distance: " ++ toString d)
  s ++ " \x7d"

/-- The hybrid search clause built by `hybridSearch`. -/
def hybridClause (params : HybridParams) : String :=
  let s := "hybrid: \x7b query: \"" ++ params.query ++ "\""
  let s := s ++
    (match params.alpha with
     | none => ""
     | some a => ", alpha: " ++ toString a)
  let s := s ++
    (match params.vector with
     | none => ""
     | some v => ", vector: [" ++ String.intercalate ", " (v.map toString) ++ "]")
  let s := s ++
    (match params.properties with
     | none => ""
     | some ps => ", properties: " ++ jsonStrList ps)
  let s := s ++
    (match params.fusionType with
     | none => ""
     | some f => if f = "" then "" else ", fusionType: " ++ f)
  s ++ " \x7d"

/-- The BM25 search clause built by `bm25Search`. -/
def bm25Clause (params : Bm25Params) : String :=
  let s := "bm25: \x7b query: \"" ++ params.query ++ "\""
  let s := s ++
    (match params.properties with
     | none => ""
     | some ps => ", properties: " ++ jsonStrList ps)
  s ++ " \x7d"

/-! ## Client facade operations (`WeaviateClientImpl` in `src/client.ts`)

Each operation is modelled over an oracle holding the outcome of its
underlying `request` call (the decoded payload on success, the typed error
on failure). Operations whose body is `return this.request(...)` are the
identity on that outcome; the others apply exactly the post-processing the
source performs. -/

/-- `getMeta`. -/
def getMeta (net : Except WvError α) : Except WvError α := net

/-- `getSchema`. -/
def getSchema (net : Except WvError α) : Except WvError α := net

/-- `getClass`. -/
def getClass (net : Except WvError α) : Except WvError α := net

/-- `createClass`. -/
def createClass (net : Except WvError α) : Except WvError α := net

/-- `updateClass`. -/
def updateClass (net : Except WvError α) : Except WvError α := net

/-- `deleteClass`. -/
def deleteClass (net : Except WvError α) : Except WvError α := net

/-- `addProperty`. -/
def addProperty (net : Except WvError α) : Except WvError α := net

/-- `getObject`. -/
def getObject (net : Except WvError α) : Except WvError α := net

/-- `createObject`. -/
def createObject (net : Except WvError α) : Except WvError α := net

/-- `updateObject`. -/
def updateObject (net : Except WvError α) : Except WvError α := net

/-- `patchObject`. -/
def patchObject (net : Except WvError α) : Except WvError α := net

/-- `deleteObject`. -/
def deleteObject (net : Except WvError α) : Except WvError α := net

/-- `batchCreateObjects`. -/
def batchCreateObjects (net : Except WvError α) : Except WvError α := net

/-- `batchDeleteObjects`. -/
def batchDeleteObjects (net : Except WvError α) : Except WvError α := net

/-- `batchAddReferences`. -/
def batchAddReferences (net : Except WvError α) : Except WvError α := net

/-- `addReference`. -/
def addReference (net : Except WvError α) : Except WvError α := net

/-- `updateReferences`. -/
def updateReferences (net : Except WvError α) : Except WvError α := net

/-- `deleteReference`. -/
def deleteReference (net : Except WvError α) : Except WvError α := net

/-- `createTenants`. -/
def createTenants (net : Except WvError α) : Except WvError α := net

/-- `updateTenants`. -/
def updateTenants (net : Except WvError α) : Except WvError α := net

/-- `deleteTenants`. -/
def deleteTenants (net : Except WvError α) : Except WvError α := net

/-- `createBackup`. -/
def createBackup (net : Except WvError α) : Except WvError α := net

/-- `getBackupStatus`. -/
def getBackupStatus (net : Except WvError α) : Except WvError α := net

/-- `restoreBackup`. -/
def restoreBackup (net : Except WvError α) : Except WvError α := net

/-- `getRestoreStatus`. -/
def getRestoreStatus (net : Except WvError α) : Except WvError α := net

/-- `cancelBackup`. -/
def cancelBackup (net : Except WvError α) : Except WvError α := net

/-- `getClusterStatistics`. -/
def getClusterStatistics (net : Except WvError α) : Except WvError α := net

/-- `createClassification`. -/
def createClassification (net : Except WvError α) : Except WvError α := net

/-- `getClassification`. -/
def getClassification (net : Except WvError α) : Except WvError α := net

/-- A tenant (`Tenant` in `src/types/entities.ts`). -/
structure Tenant where
  name : String
  activityStatus : Option String

/-- `getTenants`. -/
def getTenants (net : Except WvError (List Tenant)) : Except WvError (List Tenant) := net

/-- The `GET /v1/nodes` payload `{ nodes }`. -/
structure NodesWrapper (α : Type) where
  nodes : List α

/-- `getNodes`: unwraps `response.nodes` on success. -/
def getNodes (net : Except WvError (NodesWrapper α)) : Except WvError (List α) :=
  net.map (fun r => r.nodes)

/-- `listObjects`: the raw page from `request`, post-processed by the
pagination arithmetic. -/
def listObjects (params : PaginationParams) (net : Except WvError (RawListResponse T)) :
    Except WvError (PaginatedResponse T) :=
  net.map (listObjectsPage params)

/-- `graphqlQuery`: posts the query document; the oracle maps each document
to the outcome of its `request` call. -/
def graphqlQuery (net : String → Except WvError α) (query : String) : Except WvError α :=
  net query

/-- `nearVector`. -/
def nearVector (net : String → Except WvError α) (className : String)
    (params : NearVectorParams) (options : GetQueryOptions) : Except WvError α :=
  graphqlQuery net (buildGraphQLGetQuery className (nearVectorClause params) options)

/-- `nearText`. -/
def nearText (net : String → Except WvError α) (className : String)
    (params : NearTextParams) (options : GetQueryOptions) : Except WvError α :=
  graphqlQuery net (buildGraphQLGetQuery className (nearTextClause params) options)

/-- `nearObject`. -/
def nearObject (net : String → Except WvError α) (className : String)
    (params : NearObjectParams) (options : GetQueryOptions) : Except WvError α :=
  graphqlQuery net (buildGraphQLGetQuery className (nearObjectClause params) options)

/-- `hybridSearch`. -/
def hybridSearch (net : String → Except WvError α) (className : String)
    (params : HybridParams) (options : GetQueryOptions) : Except WvError α :=
  graphqlQuery net (buildGraphQLGetQuery className (hybridClause params) options)

/-- `bm25Search`. -/
def bm25Search (net : String → Except WvError α) (className : String)
    (params : Bm25Params) (options : GetQueryOptions) : Except WvError α :=
  graphqlQuery net (buildGraphQLGetQuery className (bm25Clause params) options)

/-- `WeaviateMeta`, the fields read by `testConnection`. -/
structure Meta where
  hostname : String
  version : String

/-- The value returned by `testConnection`. -/
structure ConnectionResult where
  connected : Bool
  message : String

/-- `testConnection`: catches every failure of `getMeta` and converts it
into a negative result carrying the error's message. -/
def testConnection (net : Except WvError Meta) : ConnectionResult :=
  match getMeta net with
  | .ok meta => ⟨true, "Connected to Weaviate " ++ meta.version ++ " at " ++ meta.hostname⟩
  | .error e => ⟨false, e.message⟩

/-- `LivenessResponse` / `ReadinessResponse`. -/
structure StatusResponse where
  status : String

/-- `isLive`: converts any failure of the probe request into `error`. -/
def isLive (net : Except WvError Unit) : StatusResponse :=
  match net with
  | .ok _ => ⟨"ok"⟩
  | .error _ => ⟨"error"⟩

/-- `isReady`: converts any failure of the probe request into `error`. -/
def isReady (net : Except WvError Unit) : StatusResponse :=
  match net with
  | .ok _ => ⟨"ok"⟩
  | .error _ => ⟨"error"⟩

/-- `objectExists`: issues a raw HEAD `fetch` (not `request`), answers
whether the status is 204 or 200, and converts any transport failure into
`false`. -/
def objectExists (fetchResult : FetchOutcome) : Bool :=
  match fetchResult with
  | .failure _ => false
  | .success r => r.status == 204 || r.status == 200

/-- `tenantExists`: fetches the tenant list and scans it locally; converts
any failure into `false`. -/
def tenantExists (net : Except WvError (List Tenant)) (tenantName : String) : Bool :=
  match getTenants net with
  | .ok tenants => tenants.any (fun t => t.name == tenantName)
  | .error _ => false

end Weaviate

/-- A sample invariant-satisfying filter: `And` of one `Equal` leaf on path
`["name"]` with `valueString "cat"`. -/
def sampleFilter : Weaviate.WhereFilter :=
  .mk .And
    (some [.mk .Equal none (some ["name"]) none none none (some "cat")
      none none none none none none none none none])
    none none none none none none none none none none none none none none

/-- The document built for `concepts = ["cat"]`, `limit = 5`, everything
else unset, on collection `Article`. -/
def catNearTextQuery : String :=
  Weaviate.buildGraphQLGetQuery "Article"
    (Weaviate.nearTextClause ⟨["cat"], none, none, none, none⟩)
    ⟨some 5, none, none, none⟩

/-- `stringifyEach` is the elementwise serialization of the list. -/
theorem stringifyEach_eq_map (l : List Weaviate.WhereFilter) :
    Weaviate.stringifyEach l = l.map Weaviate.stringifyWhere := by
  induction l with
  | nil => rfl
  | cons f fs ih => simp [Weaviate.stringifyEach, ih]

/-! ## Claim C8: hasMore heuristic of `listObjects` -/

/-- C8 (amended): `hasMore` is true exactly when the page length equals the
effective limit — the caller's limit when it is nonzero, `20` when the limit
is unspecified *or zero* (JS `||` default) — in which case the continuation
token is the effective offset plus that limit; `hasMore` does not depend on
the reported `totalResults`. -/
theorem listObjects_hasMore_heuristic {T : Type}
    (params : Weaviate.PaginationParams) (resp : Weaviate.RawListResponse T) :
    ((Weaviate.listObjectsPage params resp).hasMore = true
      ↔ (resp.objects.length : Int) = Weaviate.jsOrInt params.limit 20)
    ∧ ((Weaviate.listObjectsPage params resp).hasMore = true →
        (Weaviate.listObjectsPage params resp).nextCursor
          = some (toString (Weaviate.jsOrInt params.offset 0 + Weaviate.jsOrInt params.limit 20)))
    ∧ ∀ t : Option Int,
        (Weaviate.listObjectsPage params (⟨resp.objects, t⟩ : Weaviate.RawListResponse T)).hasMore
          = (Weaviate.listObjectsPage params resp).hasMore := by
  refine ⟨?_, ?_, ?_⟩
  · simp [Weaviate.listObjectsPage, Weaviate.createPaginatedResponse]
  · intro h
    simp only [Weaviate.listObjectsPage, Weaviate.createPaginatedResponse] at h ⊢
    simp only [Option.getD_some] at h
    simp [h]
  · intro t
    simp [Weaviate.listObjectsPage, Weaviate.createPaginatedResponse]

/-- Witness for C8: a page of 2 items with limit 2 and offset 4 has
`hasMore = true` and continuation token `"6"`. -/
theorem listObjects_hasMore_heuristic_witness :
    (Weaviate.listObjectsPage ⟨some 2, some 4⟩
        (⟨[0, 1], none⟩ : Weaviate.RawListResponse Nat)).nextCursor
      = some (toString ((4 : Int) + 2)) :=
  (listObjects_hasMore_heuristic ⟨some 2, some 4⟩
      (⟨[0, 1], none⟩ : Weaviate.RawListResponse Nat)).2.1
    ((listObjects_hasMore_heuristic ⟨some 2, some 4⟩
      (⟨[0, 1], none⟩ : Weaviate.RawListResponse Nat)).1.mpr (by decide))

/-- C8 counterexample: with a caller-specified `limit = 0` and an empty page,
the number of returned items (0) equals the caller's limit, so the claim
requires `hasMore = true`; the code computes the effective limit as
`0 || 20 = 20` and returns `hasMore = false`. -/
theorem listObjects_zero_limit_refutes_claim :
    (Weaviate.listObjectsPage ⟨some 0, none⟩
        (⟨[], none⟩ : Weaviate.RawListResponse Nat)).hasMore = false
    ∧ (([] : List Nat).length : Int) = 0 := by
  refine ⟨?_, by decide⟩
  simp [Weaviate.listObjectsPage, Weaviate.createPaginatedResponse, Weaviate.jsOrInt]

/-! ## Claim C1: the Paginated Result invariant -/

/-- C1 counterexample: `createPaginatedResponse` forwards a caller-supplied
`nextCursor` even when `hasMore` is left unset (so `false`): the result has
`nextCursor` present while `hasMore` is false, violating the claimed
invariant. -/
theorem createPaginatedResponse_cursor_without_hasMore :
    (Weaviate.createPaginatedResponse ([] : List Nat) ⟨none, none, some "20"⟩).nextCursor
      = some "20"
    ∧ (Weaviate.createPaginatedResponse ([] : List Nat) ⟨none, none, some "20"⟩).hasMore
      = false :=
  ⟨rfl, rfl⟩

/-- C1 (amended): `count == items.length` holds for every result of
`createPaginatedResponse`, `emptyPaginatedResponse` and `listObjects`; the
cursor half of the invariant (`nextCursor` present only when `hasMore`) holds
for `emptyPaginatedResponse` and `listObjects` unconditionally, but for
`createPaginatedResponse` only when the caller passes no `nextCursor` or
passes it together with `hasMore = true`. -/
theorem paginated_result_invariant {T : Type} (items : List T)
    (opts : Weaviate.CreateOptions) (params : Weaviate.PaginationParams)
    (resp : Weaviate.RawListResponse T) :
    (Weaviate.createPaginatedResponse items opts).count = items.length
    ∧ Weaviate.pagInvariant (Weaviate.emptyPaginatedResponse : Weaviate.PaginatedResponse T)
    ∧ (opts.nextCursor = none ∨ opts.hasMore = some true →
        Weaviate.pagInvariant (Weaviate.createPaginatedResponse items opts))
    ∧ Weaviate.pagInvariant (Weaviate.listObjectsPage params resp) := by
  refine ⟨rfl, ⟨rfl, by simp [Weaviate.emptyPaginatedResponse]⟩, ?_, ?_⟩
  · rintro (h | h)
    · exact ⟨rfl, by simp [Weaviate.createPaginatedResponse, h]⟩
    · exact ⟨rfl, by simp [Weaviate.createPaginatedResponse, h]⟩
  · refine ⟨rfl, ?_⟩
    simp only [Weaviate.listObjectsPage, Weaviate.createPaginatedResponse]
    intro h
    rcases hd : decide ((resp.objects.length : Int) = Weaviate.jsOrInt params.limit 20) with _ | _
    · simp [hd] at h
    · simp [hd]

/-- Witness for C1: the invariant holds for a `createPaginatedResponse` call
that passes a cursor together with `hasMore = true`. -/
theorem paginated_result_invariant_witness :
    Weaviate.pagInvariant
      (Weaviate.createPaginatedResponse ([0] : List Nat) ⟨some 9, some true, some "1"⟩) :=
  (paginated_result_invariant ([0] : List Nat) ⟨some 9, some true, some "1"⟩
      ⟨none, none⟩ (⟨[], none⟩ : Weaviate.RawListResponse Nat)).2.2.1 (Or.inr rfl)

/-! ## Claim C6: filter serialization -/

/-- C6: for every Filter Node satisfying the data-model invariant, the
serialization of a combinator node is the object holding its operator, the
serialization of *every* operand, and its path if present — with no value
member emitted — and the serialization of a leaf node is the object holding
its operator, its path, and exactly its one populated value member. -/
theorem whereFilter_serialization (f : Weaviate.WhereFilter)
    (h : Weaviate.filterInv f = true) :
    (Weaviate.isCombinatorOp f.operator = true →
      f.operands.getD [] ≠ []
      ∧ Weaviate.stringifyWhere f
        = "\x7b" ++ String.intercalate ","
            (["\"operator\":" ++ Weaviate.jsonQuote f.operator.render]
              ++ ["\"operands\":[" ++ String.intercalate ","
                    ((f.operands.getD []).map Weaviate.stringifyWhere) ++ "]"]
              ++ Weaviate.optEntry "path" Weaviate.jsonStrList f.path) ++ "\x7d"
      ∧ Weaviate.valueEntries f = [])
    ∧ (Weaviate.isCombinatorOp f.operator = false →
      (Weaviate.valueEntries f).length = 1
      ∧ Weaviate.stringifyWhere f
        = "\x7b" ++ String.intercalate ","
            (["\"operator\":" ++ Weaviate.jsonQuote f.operator.render]
              ++ Weaviate.optEntry "path" Weaviate.jsonStrList f.path
              ++ Weaviate.valueEntries f) ++ "\x7d") := by
  rcases f with ⟨op, ops, path, vI, vN, vB, vS, vT, vD, vG, vIA, vNA, vBA, vSA, vTA, vDA⟩
  simp only [Weaviate.WhereFilter.operator, Weaviate.WhereFilter.operands,
    Weaviate.WhereFilter.path, Weaviate.valueEntries]
  cases hco : Weaviate.isCombinatorOp op with
  | true =>
    cases ops with
    | none => simp [Weaviate.filterInv, hco] at h
    | some l =>
      simp only [Weaviate.filterInv, hco, if_true, Bool.and_eq_true, Bool.not_eq_true',
        List.isEmpty_iff] at h
      obtain ⟨⟨hne, hve⟩, _⟩ := h
      refine ⟨fun _ => ⟨?_, ?_, hve⟩, fun hc => by simp [hco] at hc⟩
      · simpa using hne
      · simp [Weaviate.stringifyWhere, stringifyEach_eq_map, hve]
  | false =>
    cases ops with
    | some l => simp [Weaviate.filterInv, hco] at h
    | none =>
      cases path with
      | none => simp [Weaviate.filterInv, hco] at h
      | some p =>
        simp only [Weaviate.filterInv, hco, Bool.false_eq_true, if_false,
          Option.isNone_none, Bool.true_and, Bool.and_eq_true, beq_iff_eq] at h
        obtain ⟨_, hlen⟩ := h
        refine ⟨fun hc => by simp [hco] at hc, fun _ => ⟨hlen, ?_⟩⟩
        simp [Weaviate.stringifyWhere]

/-- Witness for C6 at `sampleFilter`, the combinator branch. -/
theorem whereFilter_serialization_witness :
    sampleFilter.operands.getD [] ≠ []
    ∧ Weaviate.stringifyWhere sampleFilter
      = "\x7b" ++ String.intercalate ","
          (["\"operator\":" ++ Weaviate.jsonQuote sampleFilter.operator.render]
            ++ ["\"operands\":[" ++ String.intercalate ","
                  ((sampleFilter.operands.getD []).map Weaviate.stringifyWhere) ++ "]"]
            ++ Weaviate.optEntry "path" Weaviate.jsonStrList sampleFilter.path) ++ "\x7d"
    ∧ Weaviate.valueEntries sampleFilter = [] :=
  (whereFilter_serialization sampleFilter rfl).1 rfl


/-! ## Claims C2, C4, C5: the HTTP pipeline's status classification -/

/-- C2 (amended): a 429 response always yields a rate-limit error whose
retry value is `60` when the `Retry-After` header is absent or empty, and is
JS `parseInt` of the header otherwise — which is `NaN` (`none`), not `60`,
when the header is unparsable. -/
theorem request_429_retryAfter (baseUrl endpoint : String) (r : Weaviate.HttpResponse)
    (parse : String → Option Weaviate.JsonVal)
    (hb : baseUrl ≠ "") (hs : r.status = 429) :
    (Weaviate.requestT baseUrl endpoint (.success r) parse).result
      = .error (.rateLimit "Rate limit exceeded" (Weaviate.retryWait r.retryAfter))
    ∧ Weaviate.retryWait none = some 60
    ∧ Weaviate.retryWait (some "") = some 60
    ∧ ∀ s : String, s ≠ "" → Weaviate.retryWait (some s) = Weaviate.jsParseInt s := by
  refine ⟨?_, rfl, rfl, ?_⟩
  · simp [Weaviate.requestT, hb, hs]
  · intro s hne
    simp [Weaviate.retryWait, hne]

/-- Witness for C2: a 429 response with `Retry-After: 5` produces a
rate-limit error with retry value `parseInt("5") = 5`. -/
theorem request_429_retryAfter_witness :
    (Weaviate.requestT "http://h" "/meta" (.success ⟨429, some "5", ""⟩)
        (fun _ => none)).result
      = .error (.rateLimit "Rate limit exceeded" (Weaviate.retryWait (some "5"))) :=
  (request_429_retryAfter "http://h" "/meta" ⟨429, some "5", ""⟩ (fun _ => none)
    (by decide) rfl).1

/-- C2 counterexample: with an unparsable `Retry-After: soon` header the code
throws a rate-limit error whose retry value is `NaN` (modelled `none`), not
the claimed default of 60 seconds. -/
theorem request_429_unparsable_header_not_60 :
    (Weaviate.requestT "http://h" "/meta" (.success ⟨429, some "soon", ""⟩)
        (fun _ => none)).result
      = .error (.rateLimit "Rate limit exceeded" none)
    ∧ (none : Option Int) ≠ some 60 := by
  refine ⟨?_, by decide⟩
  simp [Weaviate.requestT, Weaviate.retryWait, Weaviate.jsParseInt,
    Weaviate.takeDigits, Weaviate.isJsSpace]

/-- C4: the status classification is a strict decision list — every 429
response yields the rate-limit error for every body and every JSON-parse
behaviour (including malformed bodies), and every 404 response yields the
not-found error regardless of body content, before and instead of the generic
non-2xx handling. -/
theorem request_status_decision_list (baseUrl endpoint : String)
    (r : Weaviate.HttpResponse) (parse : String → Option Weaviate.JsonVal)
    (hb : baseUrl ≠ "") :
    (r.status = 429 →
      (Weaviate.requestT baseUrl endpoint (.success r) parse).result
        = .error (.rateLimit "Rate limit exceeded" (Weaviate.retryWait r.retryAfter)))
    ∧ (r.status = 404 →
      (Weaviate.requestT baseUrl endpoint (.success r) parse).result
        = .error (.notFound "Resource" endpoint)) := by
  constructor
  · intro hs
    simp [Weaviate.requestT, hb, hs]
  · intro hs
    simp [Weaviate.requestT, hb, hs]

/-- Witness for C4: a 429 and a 404 response, both with a malformed JSON body
(the parse oracle rejects everything), classify as rate-limit and not-found
respectively. -/
theorem request_status_decision_list_witness :
    (Weaviate.requestT "http://h" "/x" (.success ⟨429, none, "\x7boops"⟩)
        (fun _ => none)).result
      = .error (.rateLimit "Rate limit exceeded" (Weaviate.retryWait none))
    ∧ (Weaviate.requestT "http://h" "/x" (.success ⟨404, none, "\x7boops"⟩)
        (fun _ => none)).result
      = .error (.notFound "Resource" "/x") :=
  ⟨(request_status_decision_list "http://h" "/x" ⟨429, none, "\x7boops"⟩
      (fun _ => none) (by decide)).1 rfl,
   (request_status_decision_list "http://h" "/x" ⟨404, none, "\x7boops"⟩
      (fun _ => none) (by decide)).2 rfl⟩

/-- C5: with no base URL configured, `request` throws the authentication
error and performs zero `fetch` calls, for every endpoint, every possible
network behaviour and every JSON-parse behaviour; an absent `X-Weaviate-URL`
header normalizes to the empty base URL. -/
theorem request_no_baseUrl_auth_error_no_fetch :
    ∀ (endpoint : String) (fetch : Weaviate.FetchOutcome)
      (parse : String → Option Weaviate.JsonVal),
      Weaviate.requestT "" endpoint fetch parse
        = ⟨.error (.auth "No Weaviate URL provided. Include X-Weaviate-URL header."), 0⟩
      ∧ Weaviate.normalizeBaseUrl none = "" := by
  intro endpoint fetch parse
  exact ⟨by simp [Weaviate.requestT], by decide⟩


/-! ## Claims C9 and C10: pagination arithmetic -/

/-- C9: the pure pagination arithmetic satisfies the spec's worked examples:
`hasMoreItems(10,10,25) = true`, `hasMoreItems(20,10,25) = false`,
`getNextOffset(0,20,45) = 20`, `getNextOffset(40,20,45) = undefined`. -/
theorem hasMoreItems_getNextOffset_worked_examples :
    Weaviate.hasMoreItems 10 10 25 = true
    ∧ Weaviate.hasMoreItems 20 10 25 = false
    ∧ Weaviate.getNextOffset 0 20 45 = some 20
    ∧ Weaviate.getNextOffset 40 20 45 = none := by
  refine ⟨by decide, by decide, by decide, by decide⟩

/-- C10: for every offset, limit and total, `getNextOffset` is defined exactly
when `hasMoreItems` is true, and when defined its value is `offset + limit`. -/
theorem getNextOffset_defined_iff_hasMoreItems (o l t : Int) :
    ((Weaviate.getNextOffset o l t).isSome = true ↔ Weaviate.hasMoreItems o l t = true)
    ∧ ∀ v : Int, Weaviate.getNextOffset o l t = some v → v = o + l := by
  unfold Weaviate.getNextOffset Weaviate.hasMoreItems
  by_cases h : o + l < t
  · simp [h]
  · simp [h]

/-- Witness for C10 at offset 0, limit 20, total 45. -/
theorem getNextOffset_defined_iff_hasMoreItems_witness :
    Weaviate.hasMoreItems 0 20 45 = true ∧ (20 : Int) = 0 + 20 :=
  ⟨(getNextOffset_defined_iff_hasMoreItems 0 20 45).1.mp (by decide),
   (getNextOffset_defined_iff_hasMoreItems 0 20 45).2 20 (by decide)⟩

/-! ## Claim C3: error propagation policy -/

/-- C3 counterexample: `testConnection` is a client operation outside the
claim's four-operation exception list, yet it catches the pipeline's typed
error and converts it into a negative result instead of propagating it. -/
theorem testConnection_converts_error :
    Weaviate.testConnection
        (.error (.auth "Authentication failed. Check your Weaviate API key."))
      = ⟨false, "Authentication failed. Check your Weaviate API key."⟩ := rfl

/-- C3 (amended): every modelled client operation outside the five-operation
exception list — `testConnection`, `isLive`, `isReady`, `objectExists`,
`tenantExists` — propagates the pipeline's typed error unmodified; the five
excepted operations convert any failure into a negative result, and
`objectExists` returns `false` (it cannot throw) when the HEAD request's
transport fails. -/
theorem client_error_propagation {α : Type} (e : Weaviate.WvError)
    (className tenantName failMsg : String) (params : Weaviate.PaginationParams)
    (ntP : Weaviate.NearTextParams) (nvP : Weaviate.NearVectorParams)
    (noP : Weaviate.NearObjectParams) (hyP : Weaviate.HybridParams)
    (bmP : Weaviate.Bm25Params) (opts : Weaviate.GetQueryOptions) (doc : String) :
    Weaviate.getMeta (.error e : Except _ α) = .error e
    ∧ Weaviate.getSchema (.error e : Except _ α) = .error e
    ∧ Weaviate.getClass (.error e : Except _ α) = .error e
    ∧ Weaviate.createClass (.error e : Except _ α) = .error e
    ∧ Weaviate.updateClass (.error e : Except _ α) = .error e
    ∧ Weaviate.deleteClass (.error e : Except _ α) = .error e
    ∧ Weaviate.addProperty (.error e : Except _ α) = .error e
    ∧ Weaviate.getObject (.error e : Except _ α) = .error e
    ∧ Weaviate.createObject (.error e : Except _ α) = .error e
    ∧ Weaviate.updateObject (.error e : Except _ α) = .error e
    ∧ Weaviate.patchObject (.error e : Except _ α) = .error e
    ∧ Weaviate.deleteObject (.error e : Except _ α) = .error e
    ∧ Weaviate.batchCreateObjects (.error e : Except _ α) = .error e
    ∧ Weaviate.batchDeleteObjects (.error e : Except _ α) = .error e
    ∧ Weaviate.batchAddReferences (.error e : Except _ α) = .error e
    ∧ Weaviate.addReference (.error e : Except _ α) = .error e
    ∧ Weaviate.updateReferences (.error e : Except _ α) = .error e
    ∧ Weaviate.deleteReference (.error e : Except _ α) = .error e
    ∧ Weaviate.createTenants (.error e : Except _ α) = .error e
    ∧ Weaviate.updateTenants (.error e : Except _ α) = .error e
    ∧ Weaviate.deleteTenants (.error e : Except _ α) = .error e
    ∧ Weaviate.createBackup (.error e : Except _ α) = .error e
    ∧ Weaviate.getBackupStatus (.error e : Except _ α) = .error e
    ∧ Weaviate.restoreBackup (.error e : Except _ α) = .error e
    ∧ Weaviate.getRestoreStatus (.error e : Except _ α) = .error e
    ∧ Weaviate.cancelBackup (.error e : Except _ α) = .error e
    ∧ Weaviate.getClusterStatistics (.error e : Except _ α) = .error e
    ∧ Weaviate.createClassification (.error e : Except _ α) = .error e
    ∧ Weaviate.getClassification (.error e : Except _ α) = .error e
    ∧ Weaviate.getTenants (.error e) = .error e
    ∧ Weaviate.getNodes (.error e : Except _ (Weaviate.NodesWrapper α)) = .error e
    ∧ Weaviate.listObjects params (.error e : Except _ (Weaviate.RawListResponse α))
        = .error e
    ∧ Weaviate.graphqlQuery (fun _ => (.error e : Except _ α)) doc = .error e
    ∧ Weaviate.nearVector (fun _ => (.error e : Except _ α)) className nvP opts = .error e
    ∧ Weaviate.nearText (fun _ => (.error e : Except _ α)) className ntP opts = .error e
    ∧ Weaviate.nearObject (fun _ => (.error e : Except _ α)) className noP opts = .error e
    ∧ Weaviate.hybridSearch (fun _ => (.error e : Except _ α)) className hyP opts = .error e
    ∧ Weaviate.bm25Search (fun _ => (.error e : Except _ α)) className bmP opts = .error e
    ∧ Weaviate.testConnection (.error e) = ⟨false, e.message⟩
    ∧ Weaviate.isLive (.error e) = ⟨"error"⟩
    ∧ Weaviate.isReady (.error e) = ⟨"error"⟩
    ∧ Weaviate.tenantExists (.error e) tenantName = false
    ∧ Weaviate.objectExists (.failure failMsg) = false :=
  ⟨rfl, rfl, rfl, rfl, rfl, rfl, rfl, rfl, rfl, rfl, rfl, rfl, rfl, rfl, rfl,
   rfl, rfl, rfl, rfl, rfl, rfl, rfl, rfl, rfl, rfl, rfl, rfl, rfl, rfl, rfl,
   rfl, rfl, rfl, rfl, rfl, rfl, rfl, rfl, rfl, rfl, rfl, rfl, rfl⟩

/-! ## Claim C7: the near-text worked example -/

/-- C7: the near-text query document for `concepts=["cat"]`, `limit=5`, with
certainty, distance, moveTo and moveAwayFrom unset, embeds
`nearText: { concepts: ["cat"] }` and `limit: 5`, contains no `certainty:`
or `distance:` key, and is exactly the document the `nearText` operation
sends to the GraphQL endpoint. -/
theorem nearText_cat_query_document :
    Weaviate.strContains catNearTextQuery
        "nearText: \x7b concepts: [\"cat\"] \x7d" = true
    ∧ Weaviate.strContains catNearTextQuery "limit: 5" = true
    ∧ Weaviate.strContains catNearTextQuery "certainty:" = false
    ∧ Weaviate.strContains catNearTextQuery "distance:" = false
    ∧ Weaviate.nearText (fun q => (.ok q : Except Weaviate.WvError String)) "Article"
        ⟨["cat"], none, none, none, none⟩ ⟨some 5, none, none, none⟩
      = .ok catNearTextQuery := by
  refine ⟨by decide, by decide, by decide, by decide, rfl⟩
